import Mathlib

/-!
Verification development for the job-board client application.

The development shallowly embeds the parts of the client that carry design
contracts:

* `src/app/config/api.ts` — the shared axios client's response interceptor
  (central 401 handling over persisted storage keys `authToken`, `userRole`,
  `userData`).
* the auth context (`checkAuthStatus`, `AuthProvider`) — all-or-nothing
  hydration of the in-memory session from persisted storage.
* `src/app/(jobseeker)/_layout.tsx` (`FindJobsScreen`) — the list-resource
  controller: `loadJobs`, `handleSearch`, `handleRefresh`, `handleLoadMore`,
  `handleApplyFilters`, `handleClearFilters`, the filter-chip removal
  handlers, and `handleSaveJob`.

Asynchrony is made explicit: the `async` function `loadJobs` is split into
`loadJobsStart` (the synchronous prefix up to `await jobsAPI.getAllJobs`,
which sets one loading flag and registers an in-flight request carrying the
`filters` value captured by the closure) and `loadJobsResolve` (the
continuation run when the response or error arrives: the `then`/`catch`
bodies followed by the `finally` block). A `Config` holds the screen state
plus the lists of in-flight requests, so arbitrary interleavings of user
actions and network resolutions can be replayed. React state-setter calls
are modelled as immediate field updates (the event loop serialises them),
and the `useEffect` on `[filters]` is modelled by running `loadJobsStart`
immediately after any handler that calls `setFilters` (every such call
constructs a fresh object, so the effect always fires).
-/

/-- Persisted on-device storage: the three AsyncStorage keys the auth flow
uses (`authToken`, `userRole`, `userData`). `none` models an absent key. -/
structure Storage where
  authToken : Option String
  userRole : Option String
  userData : Option String
deriving DecidableEq, Repr

/-- JavaScript truthiness of `AsyncStorage.getItem`'s result
(`string | null`): `null` and the empty string are falsy. -/
def truthy : Option String → Bool
  | none => false
  | some s => !s.isEmpty

/-- Response interceptor of the shared axios client (`api.ts` lines 53-64):
on `error.response?.status === 401` it removes `authToken` and `userRole`
from storage; in every case it returns `Promise.reject(error)` (the Bool
component records that the error is re-raised). The argument is
`error.response?.status` (`none` when no response was received). -/
def respInterceptorOnError (status : Option Nat) (st : Storage) : Storage × Bool :=
  if status = some 401 then
    ({ st with authToken := none, userRole := none }, true)
  else
    (st, true)

/-- In-memory auth context state (`AuthProvider`'s `useState` fields).
`user` holds the stored `userData` string (the `JSON.parse` result is kept
abstract as the raw serialized form). -/
structure AuthState where
  user : Option String
  userRole : Option String
  isLoading : Bool
  token : Option String
deriving DecidableEq, Repr

/-- Initial auth context state: all session fields `null`, `isLoading` true. -/
def initialAuthState : AuthState :=
  { user := none, userRole := none, isLoading := true, token := none }

/-- `checkAuthStatus` (auth context, run once on app start): reads the three
storage keys; only when `storedToken && storedRole && storedUser` is truthy
does it set `token`, `userRole` and `user`; the `finally` block clears
`isLoading` either way. -/
def checkAuthStatus (st : Storage) (a : AuthState) : AuthState :=
  if truthy st.authToken && truthy st.userRole && truthy st.userData then
    { a with
        token := st.authToken
        userRole := st.userRole
        user := st.userData
        isLoading := false }
  else
    { a with isLoading := false }

/-- `isAuthenticated: !!token` in the auth context's provided value. -/
def isAuthenticated (a : AuthState) : Bool :=
  truthy a.token

/-- The `JobFilters` fields `FindJobsScreen` reads or writes. -/
structure Filters where
  page : Nat
  limit : Nat
  search : Option String
  location : Option String
  employmentType : Option String
  experienceLevel : Option String
  salaryMin : Option Nat
  isRemote : Option Bool
  skills : Option (List String)
deriving DecidableEq, Repr

/-- A job item as the list screen observes it: its opaque `id` and the
locally toggled `isSaved` flag. -/
structure JobItem where
  id : String
  isSaved : Bool
deriving DecidableEq, Repr

/-- The `pagination` state of `FindJobsScreen`. -/
structure Pagination where
  total : Nat
  page : Nat
  totalPages : Nat
deriving DecidableEq, Repr

/-- The `useState` fields of `FindJobsScreen`, plus counters for the
`Alert.alert` calls the handlers issue (`errorAlerts` for the catch
branches, `successAlerts` for the save/unsave success messages). -/
structure ScreenState where
  jobs : List JobItem
  isLoading : Bool
  isRefreshing : Bool
  isLoadingMore : Bool
  searchQuery : String
  showFilters : Bool
  filters : Filters
  pagination : Pagination
  errorAlerts : Nat
  successAlerts : Nat
deriving DecidableEq, Repr

/-- An in-flight `jobsAPI.getAllJobs` request: the `isRefresh` argument and
the `filters` value the `loadJobs` closure captured when it started. -/
structure PendingLoad where
  isRefresh : Bool
  filters : Filters
deriving DecidableEq, Repr

/-- How a pending `getAllJobs` call settles: `ok` carries
`response.data.jobs` and `response.data.pagination`; `noData` is a response
whose body lacks `jobs` (the `console.warn` branch); `err` is a rejected
promise (the `catch` branch). -/
inductive LoadOutcome where
  | ok (jobs : List JobItem) (pg : Pagination)
  | noData
  | err
deriving DecidableEq, Repr

/-- A configuration: the screen state together with the in-flight
`getAllJobs` requests (in issue order) and the in-flight save/unsave
requests (the job ids `handleSaveJob` is awaiting). -/
structure Config where
  state : ScreenState
  pending : List PendingLoad
  pendingSaves : List String
deriving DecidableEq, Repr

/-- Synchronous prefix of `loadJobs` (lines 727-737): sets exactly one of
the three loading flags — `isRefreshing` if called with `isRefresh`,
`isLoading` if the captured `filters.page === 1`, `isLoadingMore`
otherwise — and issues `jobsAPI.getAllJobs(filters)` with the captured
filters. -/
def loadJobsStart (isRefresh : Bool) (c : Config) : Config :=
  let s := c.state
  let s' :=
    if isRefresh then { s with isRefreshing := true }
    else if s.filters.page = 1 then { s with isLoading := true }
    else { s with isLoadingMore := true }
  { c with state := s', pending := c.pending ++ [⟨isRefresh, s.filters⟩] }

/-- Continuation of `loadJobs` (lines 739-763) run when the request `p`
settles with outcome `o`: on `ok`, replace `jobs` when the captured
`filters.page === 1 || isRefresh` and append otherwise, then store the
response's pagination; on `noData`, only warn; on `err`, surface an error
alert. The `finally` block clears all three loading flags in every case. -/
def loadJobsResolve (p : PendingLoad) (o : LoadOutcome) (s : ScreenState) : ScreenState :=
  let s1 :=
    match o with
    | .ok newJobs pg =>
        let s' :=
          if p.filters.page = 1 ∨ p.isRefresh = true then { s with jobs := newJobs }
          else { s with jobs := s.jobs ++ newJobs }
        { s' with pagination := pg }
    | .noData => s
    | .err => { s with errorAlerts := s.errorAlerts + 1 }
  { s1 with isLoading := false, isRefreshing := false, isLoadingMore := false }

/-- Settle the `i`-th in-flight `getAllJobs` request with outcome `o`
(out-of-order network resolution picks any index). -/
def resolveAt (i : Nat) (o : LoadOutcome) (c : Config) : Config :=
  match c.pending[i]? with
  | none => c
  | some p =>
      { c with state := loadJobsResolve p o c.state, pending := c.pending.eraseIdx i }

/-- Typing in the search box (`setSearchQuery`). -/
def setSearchQuery (q : String) (c : Config) : Config :=
  { c with state := { c.state with searchQuery := q } }

/-- `handleSearch` (lines 767-773): merges `search: searchQuery, page: 1`
into `filters`; the `useEffect` on `[filters]` then runs `loadJobs()`
capturing the new filters. -/
def handleSearch (c : Config) : Config :=
  let f := c.state.filters
  let f' := { f with search := some c.state.searchQuery, page := 1 }
  loadJobsStart false { c with state := { c.state with filters := f' } }

/-- `handleRefresh` (lines 775-778): calls `setFilters(prev => {...prev,
page: 1})` and `loadJobs(true)`. The direct `loadJobs(true)` call closes
over the pre-update `filters`; the filters update then re-fires the
`useEffect`, which runs `loadJobs()` with the new filters (whose
`page === 1` selects the `isLoading` flag). -/
def handleRefresh (c : Config) : Config :=
  let c1 := loadJobsStart true c
  let c2 := { c1 with state := { c1.state with filters := { c1.state.filters with page := 1 } } }
  loadJobsStart false c2

/-- JavaScript `prev.page || 1`: `0` is falsy. -/
def orOne (n : Nat) : Nat :=
  if n = 0 then 1 else n

/-- `handleLoadMore` (lines 780-787): when `!isLoadingMore &&
pagination.page < pagination.totalPages`, sets `filters.page` to
`(prev.page || 1) + 1`, upon which the `useEffect` runs `loadJobs()`;
otherwise nothing happens. -/
def handleLoadMore (c : Config) : Config :=
  if c.state.isLoadingMore = false ∧ c.state.pagination.page < c.state.pagination.totalPages then
    let f := c.state.filters
    let f' := { f with page := orOne f.page + 1 }
    loadJobsStart false { c with state := { c.state with filters := f' } }
  else c

/-- `handleApplyFilters` (lines 789-795): replaces `filters` with
`{...newFilters, page: 1}`, hides the modal, and the `useEffect` runs
`loadJobs()`. -/
def handleApplyFilters (nf : Filters) (c : Config) : Config :=
  let f' := { nf with page := 1 }
  loadJobsStart false
    { c with state := { c.state with filters := f', showFilters := false } }

/-- The default filters `useState` initialiser `{ page: 1, limit: 10 }`. -/
def initialFilters : Filters :=
  { page := 1, limit := 10, search := none, location := none,
    employmentType := none, experienceLevel := none, salaryMin := none,
    isRemote := none, skills := none }

/-- `handleClearFilters` (lines 797-803): clears the search box and resets
`filters` to `{ page: 1, limit: 10 }`; the `useEffect` runs `loadJobs()`. -/
def handleClearFilters (c : Config) : Config :=
  loadJobsStart false
    { c with state := { c.state with searchQuery := "", filters := initialFilters } }

/-- The location chip's close button (line 907):
`setFilters({ ...filters, location: undefined, page: 1 })`, after which the
`useEffect` runs `loadJobs()`. -/
def removeLocationChip (c : Config) : Config :=
  let f' := { c.state.filters with location := none, page := 1 }
  loadJobsStart false { c with state := { c.state with filters := f' } }

/-- The employment-type chip's close button (line 919). -/
def removeEmploymentTypeChip (c : Config) : Config :=
  let f' := { c.state.filters with employmentType := none, page := 1 }
  loadJobsStart false { c with state := { c.state with filters := f' } }

/-- The experience-level chip's close button (line 930). -/
def removeExperienceLevelChip (c : Config) : Config :=
  let f' := { c.state.filters with experienceLevel := none, page := 1 }
  loadJobsStart false { c with state := { c.state with filters := f' } }

/-- Synchronous prefix of `handleSaveJob` (lines 805-816): looks the job up
in `jobs` (returning early when absent) and awaits `jobsAPI.saveJob` or
`jobsAPI.unsaveJob`; no local state changes before the await. -/
def handleSaveJobStart (jobId : String) (c : Config) : Config :=
  match c.state.jobs.find? (fun j => j.id = jobId) with
  | none => c
  | some _ => { c with pendingSaves := c.pendingSaves ++ [jobId] }

/-- Continuation of `handleSaveJob` (lines 812-827) once the gateway call
settles: on success, a success alert and `setJobs(prev => prev.map(j =>
j.id === jobId ? { ...j, isSaved: !j.isSaved } : j))`; on failure, only an
error alert — `jobs` is untouched. -/
def handleSaveJobResolve (jobId : String) (ok : Bool) (s : ScreenState) : ScreenState :=
  if ok then
    { s with
        successAlerts := s.successAlerts + 1,
        jobs := s.jobs.map (fun j => if j.id = jobId then { j with isSaved := !j.isSaved } else j) }
  else
    { s with errorAlerts := s.errorAlerts + 1 }

/-- Settle the `i`-th in-flight save/unsave request. -/
def resolveSaveAt (i : Nat) (ok : Bool) (c : Config) : Config :=
  match c.pendingSaves[i]? with
  | none => c
  | some jobId =>
      { c with
          state := handleSaveJobResolve jobId ok c.state,
          pendingSaves := c.pendingSaves.eraseIdx i }

/-- The `useState` initialisers of `FindJobsScreen`. -/
def initialScreenState : ScreenState :=
  { jobs := [], isLoading := true, isRefreshing := false, isLoadingMore := false,
    searchQuery := "", showFilters := false, filters := initialFilters,
    pagination := { total := 0, page := 1, totalPages := 1 },
    errorAlerts := 0, successAlerts := 0 }

/-- The screen just after mount: the `useEffect` on `[filters]` fires once
and runs `loadJobs()` for the initial page. -/
def mountConfig : Config :=
  loadJobsStart false { state := initialScreenState, pending := [], pendingSaves := [] }

/-- A reachable configuration: the initial fetch returned one job (id
`"a"`, not saved) on page 1 of 2, and the screen is idle again. -/
def pageOneCfg : Config :=
  resolveAt 0 (.ok [⟨"a", false⟩] ⟨15, 1, 2⟩) mountConfig

/-- Replay for claim C2: from `pageOneCfg`, a `loadMore` whose response
overlaps page 1 (the backend returns job `"a"` again on page 2). -/
def c2Trace : Config :=
  resolveAt 0 (.ok [⟨"a", false⟩] ⟨15, 2, 2⟩) (handleLoadMore pageOneCfg)

/-- The filter set applied as query B in claim C3's replay. -/
def filtersB : Filters :=
  { initialFilters with location := some "Manila" }

/-- Replay for claim C3: an empty initial page settles; a search for query
A is issued; `handleApplyFilters` issues query B while A is in flight; B's
response (job `"jobB"`) arrives first, then A's late response (job
`"jobA"`) arrives. -/
def c3Trace : Config :=
  resolveAt 0 (.ok [⟨"jobA", false⟩] ⟨1, 1, 1⟩)
    (resolveAt 1 (.ok [⟨"jobB", false⟩] ⟨1, 1, 1⟩)
      (handleApplyFilters filtersB
        (handleSearch
          (setSearchQuery "engineer"
            (resolveAt 0 (.ok [] ⟨0, 1, 1⟩) mountConfig)))))

/-- Replay for claim C4: from `pageOneCfg`, `handleSaveJob("a")` has
issued its gateway call, which is still in flight. -/
def c4Trace : Config :=
  handleSaveJobStart "a" pageOneCfg

/-- Replay for claim C5: from `pageOneCfg`, a `loadMore` is issued and its
fetch fails. -/
def c5Trace : Config :=
  resolveAt 0 .err (handleLoadMore pageOneCfg)

/-! ## Helper lemmas about the controller's operations -/

/-- Starting a fetch never changes the filters. -/
theorem loadJobsStart_filters (b : Bool) (c : Config) :
    (loadJobsStart b c).state.filters = c.state.filters := by
  unfold loadJobsStart
  by_cases hb : b = true <;> by_cases hp : c.state.filters.page = 1 <;> simp [hb, hp]

/-- Starting a fetch never changes the jobs list. -/
theorem loadJobsStart_jobs (b : Bool) (c : Config) :
    (loadJobsStart b c).state.jobs = c.state.jobs := by
  unfold loadJobsStart
  by_cases hb : b = true <;> by_cases hp : c.state.filters.page = 1 <;> simp [hb, hp]

/-- Starting a fetch appends one in-flight request carrying the captured
filters. -/
theorem loadJobsStart_pending (b : Bool) (c : Config) :
    (loadJobsStart b c).pending = c.pending ++ [⟨b, c.state.filters⟩] := by
  unfold loadJobsStart
  by_cases hb : b = true <;> by_cases hp : c.state.filters.page = 1 <;> simp [hb, hp]

/-- A fetch continuation (`then`/`catch`/`finally` of `loadJobs`) never
touches the filters. -/
theorem loadJobsResolve_filters (p : PendingLoad) (o : LoadOutcome) (s : ScreenState) :
    (loadJobsResolve p o s).filters = s.filters := by
  cases o with
  | ok newJobs pg =>
      by_cases h : p.filters.page = 1 ∨ p.isRefresh = true <;>
        simp [loadJobsResolve, h]
  | noData => rfl
  | err => rfl

/-- Settling any in-flight request never touches the filters. -/
theorem resolveAt_filters (i : Nat) (o : LoadOutcome) (c : Config) :
    (resolveAt i o c).state.filters = c.state.filters := by
  cases h : c.pending[i]? <;> simp [resolveAt, h, loadJobsResolve_filters]

/-! ## Claim C1 — 401 interceptor and the persisted session triple -/

/-- Claim C1 as stated is false: after the response interceptor handles a
401 on a storage holding all three session keys, `userData` is still
present — the interceptor removes only `authToken` and `userRole`
(`api.ts` lines 56-61), so a token-less-but-user-data-present state
remains. -/
theorem c1_counterexample :
    ¬ (respInterceptorOnError (some 401)
        { authToken := some "tok", userRole := some "job_seeker",
          userData := some "u1" }).1.userData = none := by
  decide

/-- Claim C1 amended: on a 401 the response interceptor clears `authToken`
and `userRole` together and re-raises the error, but it leaves `userData`
untouched. -/
theorem c1_amended_interceptor_clears_token_and_role_only (st : Storage) :
    (respInterceptorOnError (some 401) st).1.authToken = none ∧
    (respInterceptorOnError (some 401) st).1.userRole = none ∧
    (respInterceptorOnError (some 401) st).1.userData = st.userData ∧
    (respInterceptorOnError (some 401) st).2 = true := by
  refine ⟨?_, ?_, ?_, ?_⟩ <;> simp [respInterceptorOnError]

/-! ## Claim C10 — all-or-nothing session hydration at app start -/

/-- Claim C10: if any of the three persisted fields is absent at app start,
`checkAuthStatus` leaves the freshly mounted auth context with `token`,
`userRole` and `user` all null and `isAuthenticated` false — a partially
persisted session is never partially restored. -/
theorem c10_partial_storage_never_partially_restored (st : Storage)
    (h : st.authToken = none ∨ st.userRole = none ∨ st.userData = none) :
    (checkAuthStatus st initialAuthState).token = none ∧
    (checkAuthStatus st initialAuthState).userRole = none ∧
    (checkAuthStatus st initialAuthState).user = none ∧
    isAuthenticated (checkAuthStatus st initialAuthState) = false := by
  have hcond : ¬ (truthy st.authToken && truthy st.userRole && truthy st.userData) = true := by
    rcases h with h | h | h <;> simp [h, truthy]
  unfold checkAuthStatus
  rw [if_neg hcond]
  exact ⟨rfl, rfl, rfl, rfl⟩

/-- Witness for C10 at a storage whose token key is absent but whose role
and user keys are present. -/
theorem c10_witness :
    ((Storage.mk none (some "job_seeker") (some "u1")).authToken = none ∨
     (Storage.mk none (some "job_seeker") (some "u1")).userRole = none ∨
     (Storage.mk none (some "job_seeker") (some "u1")).userData = none) ∧
    ((checkAuthStatus (Storage.mk none (some "job_seeker") (some "u1")) initialAuthState).token = none ∧
     (checkAuthStatus (Storage.mk none (some "job_seeker") (some "u1")) initialAuthState).userRole = none ∧
     (checkAuthStatus (Storage.mk none (some "job_seeker") (some "u1")) initialAuthState).user = none ∧
     isAuthenticated (checkAuthStatus (Storage.mk none (some "job_seeker") (some "u1")) initialAuthState) = false) :=
  ⟨Or.inl rfl,
   c10_partial_storage_never_partially_restored
     (Storage.mk none (some "job_seeker") (some "u1")) (Or.inl rfl)⟩

/-! ## Claim C6 — a failed fetch preserves the items -/

/-- Claim C6: when any fetch (initial, filter, or refresh) fails, the
`catch`/`finally` of `loadJobs` leaves `jobs` exactly as it was, surfaces
one error alert, and clears all loading flags (`isRefreshing` included);
moreover issuing a refresh itself never changes `jobs`, so the items before
the call survive a failing `refresh()` unchanged. -/
theorem c6_failed_fetch_preserves_items (p : PendingLoad) (s : ScreenState) (c : Config) :
    (loadJobsResolve p .err s).jobs = s.jobs ∧
    (loadJobsResolve p .err s).errorAlerts = s.errorAlerts + 1 ∧
    (loadJobsResolve p .err s).isRefreshing = false ∧
    (loadJobsResolve p .err s).isLoading = false ∧
    (loadJobsResolve p .err s).isLoadingMore = false ∧
    (handleRefresh c).state.jobs = c.state.jobs := by
  refine ⟨rfl, rfl, rfl, rfl, rfl, ?_⟩
  simp [handleRefresh, loadJobsStart_jobs]

/-! ## Claim C7 — every filter-applying action resets the page to 1 -/

/-- Claim C7: applying the filter modal (`handleApplyFilters`), submitting
a search (`handleSearch`), and removing any individual filter chip all set
`filters.page` to 1, regardless of the prior page value. -/
theorem c7_apply_filters_resets_page_to_one (c : Config) (nf : Filters) :
    (handleApplyFilters nf c).state.filters.page = 1 ∧
    (handleSearch c).state.filters.page = 1 ∧
    (removeLocationChip c).state.filters.page = 1 ∧
    (removeEmploymentTypeChip c).state.filters.page = 1 ∧
    (removeExperienceLevelChip c).state.filters.page = 1 := by
  refine ⟨?_, ?_, ?_, ?_, ?_⟩ <;>
    simp [handleApplyFilters, handleSearch, removeLocationChip,
          removeEmploymentTypeChip, removeExperienceLevelChip,
          loadJobsStart_filters]

/-! ## Claim C8 — the loadMore guard -/

/-- Claim C8: `handleLoadMore` is a complete no-op (same configuration: no
page change, no flag change, no new in-flight request) when
`isLoadingMore` is already true or `pagination.page ≥
pagination.totalPages`; otherwise (for the reachable page values `≥ 1`) it
bumps `filters.page` by one, which fires a fetch for the new page and sets
`isLoadingMore`. -/
theorem c8_load_more_guard (c : Config) :
    (c.state.isLoadingMore = true ∨
       c.state.pagination.totalPages ≤ c.state.pagination.page →
         handleLoadMore c = c) ∧
    (c.state.isLoadingMore = false →
     c.state.pagination.page < c.state.pagination.totalPages →
     1 ≤ c.state.filters.page →
       (handleLoadMore c).state.filters.page = c.state.filters.page + 1 ∧
       (handleLoadMore c).state.isLoadingMore = true ∧
       (handleLoadMore c).pending
         = c.pending ++ [⟨false, { c.state.filters with page := c.state.filters.page + 1 }⟩]) := by
  constructor
  · intro h
    unfold handleLoadMore
    rw [if_neg]
    rintro ⟨h1, h2⟩
    rcases h with h | h
    · rw [h] at h1
      cases h1
    · omega
  · intro h1 h2 h3
    have hne : c.state.filters.page ≠ 0 := by omega
    have hp1 : orOne c.state.filters.page = c.state.filters.page := by
      simp [orOne, hne]
    have hne1 : ¬ (orOne c.state.filters.page + 1 = 1) := by
      rw [hp1]
      omega
    unfold handleLoadMore
    rw [if_pos ⟨h1, h2⟩]
    refine ⟨?_, ?_, ?_⟩
    · rw [loadJobsStart_filters]
      simp [hp1]
    · simp [loadJobsStart, hne1]
    · rw [loadJobsStart_pending]
      simp [hp1]

/-- Witness for C8: from the freshly mounted screen (page 1 of 1) a
`loadMore` is a no-op, and from `pageOneCfg` (page 1 of 2) it bumps the
query page from 1 to 2. -/
theorem c8_witness :
    ((mountConfig.state.isLoadingMore = true ∨
       mountConfig.state.pagination.totalPages ≤ mountConfig.state.pagination.page) ∧
      handleLoadMore mountConfig = mountConfig) ∧
    (pageOneCfg.state.isLoadingMore = false ∧
     pageOneCfg.state.pagination.page < pageOneCfg.state.pagination.totalPages ∧
     1 ≤ pageOneCfg.state.filters.page ∧
     (handleLoadMore pageOneCfg).state.filters.page = pageOneCfg.state.filters.page + 1) :=
  ⟨⟨Or.inr (by decide), (c8_load_more_guard mountConfig).1 (Or.inr (by decide))⟩,
   ⟨by decide, by decide, by decide,
    ((c8_load_more_guard pageOneCfg).2 (by decide) (by decide) (by decide)).1⟩⟩

/-! ## Claim C9 — mutual exclusion of the loading flags -/

/-- Claim C9 as stated is false: from the reachable idle state with one
loaded page, a pull-to-refresh leaves both `isRefreshing` and `isLoading`
true at the same time — `handleRefresh` calls `loadJobs(true)` directly
(setting `isRefreshing`) and its `setFilters` re-fires the `useEffect` on
`[filters]`, whose `loadJobs()` sees `page === 1` and sets `isLoading`
while the refresh request is still in flight. -/
theorem c9_counterexample :
    (handleRefresh pageOneCfg).state.isRefreshing = true ∧
    (handleRefresh pageOneCfg).state.isLoading = true := by
  decide

/-- Claim C9 amended: each fetch settlement clears all three flags together
(idle after every settle), but the at-most-one-flag invariant fails during
refresh: after any `handleRefresh` both `isRefreshing` and `isLoading` are
true until one of the two overlapping fetches settles. -/
theorem c9_amended_refresh_overlaps_two_flags (c : Config) (p : PendingLoad)
    (o : LoadOutcome) (s : ScreenState) :
    (handleRefresh c).state.isRefreshing = true ∧
    (handleRefresh c).state.isLoading = true ∧
    (loadJobsResolve p o s).isLoading = false ∧
    (loadJobsResolve p o s).isRefreshing = false ∧
    (loadJobsResolve p o s).isLoadingMore = false :=
  ⟨rfl, rfl, rfl, rfl, rfl⟩

/-! ## Claim C2 — deduplication of appended pages -/

/-- Claim C2 as stated is false: in the replay where a `loadMore` response
repeats an id already in `items` (job `"a"` on both pages), the resulting
`items` contains `"a"` twice — `loadJobs` appends with
`[...prev, ...newJobs]` and never deduplicates. -/
theorem c2_counterexample :
    ¬ (c2Trace.state.jobs.map JobItem.id).Nodup := by
  decide

/-- Claim C2 amended: a `loadMore` settlement appends the fetched page to
`items` verbatim — an item whose id is already present is re-inserted, so
overlapping pages produce duplicates. -/
theorem c2_amended_append_without_dedup (s : ScreenState) (p : PendingLoad)
    (newJobs : List JobItem) (pg : Pagination)
    (h1 : p.isRefresh = false) (h2 : p.filters.page ≠ 1) :
    (loadJobsResolve p (.ok newJobs pg) s).jobs = s.jobs ++ newJobs := by
  have h : ¬ (p.filters.page = 1 ∨ p.isRefresh = true) := by
    rintro (h | h)
    · exact h2 h
    · rw [h1] at h
      cases h
  simp [loadJobsResolve, h]

/-- Witness for C2's amended theorem at a concrete page-2 request. -/
theorem c2_witness :
    (PendingLoad.mk false { initialFilters with page := 2 }).isRefresh = false ∧
    (PendingLoad.mk false { initialFilters with page := 2 }).filters.page ≠ 1 ∧
    (loadJobsResolve (PendingLoad.mk false { initialFilters with page := 2 })
        (.ok [JobItem.mk "b" false] (Pagination.mk 2 2 2)) initialScreenState).jobs
      = initialScreenState.jobs ++ [JobItem.mk "b" false] :=
  ⟨rfl, by decide,
   c2_amended_append_without_dedup initialScreenState
     (PendingLoad.mk false { initialFilters with page := 2 })
     [JobItem.mk "b" false] (Pagination.mk 2 2 2) rfl (by decide)⟩

/-! ## Claim C3 — stale responses are not discarded -/

/-- Claim C3 as stated is false: in the replay where query A's response
arrives after query B's, the final `items` is `[jobA]` — query A's stale
result — not query B's `[jobB]`. `loadJobs` has no generation counter or
query tag, so whichever response settles last overwrites `items`. -/
theorem c3_counterexample :
    c3Trace.state.jobs = [⟨"jobA", false⟩] ∧
    c3Trace.state.jobs ≠ [⟨"jobB", false⟩] := by
  decide

/-- Claim C3 amended: the last response to settle wins unconditionally —
settling any page-1 (or refresh) request replaces `items` with that
request's result, even when a newer request's result had already been
applied. -/
theorem c3_amended_last_resolution_wins (s : ScreenState) (pA pB : PendingLoad)
    (jA jB : List JobItem) (pgA pgB : Pagination)
    (h : pA.filters.page = 1 ∨ pA.isRefresh = true) :
    (loadJobsResolve pA (.ok jA pgA) (loadJobsResolve pB (.ok jB pgB) s)).jobs = jA := by
  rcases h with h | h <;> simp [loadJobsResolve, h]

/-- Witness for C3's amended theorem: a late page-1 response overwrites the
previously applied one. -/
theorem c3_witness :
    ((PendingLoad.mk false initialFilters).filters.page = 1 ∨
     (PendingLoad.mk false initialFilters).isRefresh = true) ∧
    (loadJobsResolve (PendingLoad.mk false initialFilters)
        (.ok [JobItem.mk "x" false] (Pagination.mk 1 1 1))
        (loadJobsResolve (PendingLoad.mk true initialFilters)
          (.ok [JobItem.mk "y" false] (Pagination.mk 1 1 1)) initialScreenState)).jobs
      = [JobItem.mk "x" false] :=
  ⟨Or.inl rfl,
   c3_amended_last_resolution_wins initialScreenState
     (PendingLoad.mk false initialFilters) (PendingLoad.mk true initialFilters)
     [JobItem.mk "x" false] [JobItem.mk "y" false]
     (Pagination.mk 1 1 1) (Pagination.mk 1 1 1) (Or.inl rfl)⟩

/-! ## Claim C4 — the save toggle is pessimistic, not optimistic -/

/-- Claim C4 as stated is false: after `handleSaveJob("a")` has issued its
gateway call (one save request in flight), job `"a"`'s `isSaved` flag is
still its old value `false` — the handler awaits the gateway call before
flipping, so no flip is visible before the call resolves. -/
theorem c4_counterexample :
    c4Trace.pendingSaves = ["a"] ∧
    c4Trace.state.jobs = [⟨"a", false⟩] ∧
    c4Trace.state.jobs ≠ [⟨"a", true⟩] := by
  decide

/-- Claim C4 amended: the save toggle is pessimistic — issuing the call
changes no item; on failure `items` is untouched (the flag trivially equals
its pre-toggle value) and one error is surfaced; only on success is the
matching item's flag flipped. -/
theorem c4_amended_save_toggle_is_pessimistic (jobId : String) (c : Config)
    (s : ScreenState) :
    (handleSaveJobStart jobId c).state.jobs = c.state.jobs ∧
    (handleSaveJobResolve jobId false s).jobs = s.jobs ∧
    (handleSaveJobResolve jobId false s).errorAlerts = s.errorAlerts + 1 ∧
    (handleSaveJobResolve jobId true s).jobs
      = s.jobs.map (fun j => if j.id = jobId then { j with isSaved := !j.isSaved } else j) := by
  refine ⟨?_, rfl, rfl, rfl⟩
  cases hf : c.state.jobs.find? (fun j => j.id = jobId) <;>
    simp [handleSaveJobStart, hf]

/-! ## Claim C5 — the page counter is not rolled back on failure -/

/-- Claim C5 as stated is false: in the replay where the `loadMore` fetch
fails, `filters.page` stays at the incremented value 2 instead of being
rolled back to its pre-`loadMore` value 1. -/
theorem c5_counterexample :
    c5Trace.state.filters.page = 2 ∧ c5Trace.state.filters.page ≠ 1 := by
  decide

/-- Claim C5 amended: a failed `loadMore` performs no rollback — after the
failure settles, `filters.page` still holds the incremented value, so a
retry would request the page after the one that failed. -/
theorem c5_amended_no_page_rollback_on_failure (c : Config) (i : Nat)
    (h1 : c.state.isLoadingMore = false)
    (h2 : c.state.pagination.page < c.state.pagination.totalPages)
    (h3 : 1 ≤ c.state.filters.page) :
    (resolveAt i .err (handleLoadMore c)).state.filters.page
      = c.state.filters.page + 1 := by
  rw [resolveAt_filters]
  have hne : c.state.filters.page ≠ 0 := by omega
  unfold handleLoadMore
  rw [if_pos ⟨h1, h2⟩]
  rw [loadJobsStart_filters]
  simp [orOne, hne]

/-- Witness for C5's amended theorem: from `pageOneCfg` the failed
`loadMore` leaves the query page at 2. -/
theorem c5_witness :
    pageOneCfg.state.isLoadingMore = false ∧
    pageOneCfg.state.pagination.page < pageOneCfg.state.pagination.totalPages ∧
    1 ≤ pageOneCfg.state.filters.page ∧
    (resolveAt 0 .err (handleLoadMore pageOneCfg)).state.filters.page
      = pageOneCfg.state.filters.page + 1 :=
  ⟨by decide, by decide, by decide,
   c5_amended_no_page_rollback_on_failure pageOneCfg 0 (by decide) (by decide) (by decide)⟩
